import Mathlib

/-
Verification development for the spotify playlist dashboard
(src/spotify-playlist-test/app.py).  Python strings are embedded as
`List Char`, Python dicts of interest as structures or association lists,
fallible Python expressions as `Except Unit`.  The functions below are
shallow embeddings of the source functions, with comments pointing at the
source lines they embed.
-/

namespace SpotiApp

/-! ### String constants appearing in app.py -/

def unknownTrackStr : List Char := "Unknown Track".toList

def unknownArtistStr : List Char := "Unknown Artist".toList

def unknownIdStr : List Char := "Unknown ID".toList

def unknownAlbumStr : List Char := "Unknown Album".toList

def noIdStr : List Char := "No ID".toList

def noURLStr : List Char := "No URL".toList

def noGenresStr : List Char := "No Genres".toList

def commaSep : List Char := ", ".toList

def spotifyKey : List Char := "spotify".toList

def noDescriptionStr : List Char := "No description available".toList

def spotifySubstr : List Char := "spotify.com/playlist/".toList

/-! ### Python `str.split(sep)` for a one-character separator

`s.split(sep)` splits on every occurrence of `sep`, keeping empty pieces;
the result is never the empty list. -/

def splitOnChar (sep : Char) : List Char → List (List Char)
  | [] => [[]]
  | c :: rest =>
    let r := splitOnChar sep rest
    if c = sep then [] :: r else (c :: r.headD []) :: r.tail

/-- app.py line 47: `playlist_uri = playlist_link.split("/")[-1].split("?")[0]`.
`[-1]` on a Python split result is its last element and `[0]` its first;
both always exist since `split` never returns an empty list. -/
def get_playlist_uri (playlist_link : List Char) : List Char :=
  (splitOnChar '?' ((splitOnChar '/' playlist_link).getLastD [])).headD []

/-! ### Python `int(s)` on a string

`int` strips surrounding whitespace, then accepts an optional sign followed
by a nonempty digit sequence in which single underscores may separate
digits.  (Unicode digits are not modelled; the release-date and popularity
strings of interest are ASCII.)  Failure (`ValueError`) is `none`. -/

def pyStrip (l : List Char) : List Char :=
  ((l.dropWhile Char.isWhitespace).reverse.dropWhile Char.isWhitespace).reverse

/-- Digit run continuation: `prev` records whether the previous character
was a digit (an underscore is only legal directly between two digits). -/
def digitsCont : Bool → Nat → List Char → Option Nat
  | prev, acc, [] => if prev then some acc else Option.none
  | prev, acc, c :: rest =>
    if c.isDigit then digitsCont true (acc * 10 + (c.toNat - 48)) rest
    else if c = '_' ∧ prev = true then digitsCont false acc rest
    else Option.none

def parseDigits : List Char → Option Nat
  | [] => Option.none
  | c :: rest => if c.isDigit then digitsCont true (c.toNat - 48) rest else Option.none

def pythonInt (s : List Char) : Option Int :=
  let t := pyStrip s
  if t = [] then Option.none
  else
    if t.headD ' ' = '+' then (parseDigits t.tail).map Int.ofNat
    else if t.headD ' ' = '-' then
      (parseDigits t.tail).map (fun n => -(Int.ofNat n))
    else (parseDigits t).map Int.ofNat

/-- Decimal value of a digit list (spec-side value of a successful parse). -/
def decVal (l : List Char) : Nat :=
  l.foldl (fun n c => n * 10 + (c.toNat - 48)) 0

/-- app.py lines 90-93: `release_year = int(release_date[:4])`, with a bare
`except` recording `None` on failure.  `release_date[:4]` is `take 4`. -/
def release_year_of (release_date : List Char) : Option Int :=
  pythonInt (release_date.take 4)

/-! ### JSON values and track records -/

/-- A loosely typed field value as it arrives from the API: JSON null,
an integer, or a string. -/
inductive PyVal where
  | null
  | int (n : Int)
  | str (s : List Char)
deriving DecidableEq

/-- The `external_urls` entry of a track dict: the key may be absent
(subscripting raises `KeyError`), null (falsy), or a dict, modelled as an
association list of key/value pairs (falsy iff empty). -/
inductive ExtUrls where
  | absent
  | null
  | dict (entries : List (List Char × List Char))
deriving DecidableEq

/-- Python `d.get(k, None)` on an association-list dict. -/
def lookupA (k : List Char) : List (List Char × List Char) → Option (List Char)
  | [] => Option.none
  | (k', v) :: rest => if k' = k then some v else lookupA k rest

structure SimpleArtist where
  id : List Char
  name : List Char
deriving DecidableEq

structure AlbumObj where
  name : List Char
  release_date : List Char
deriving DecidableEq

/-- A full artist object as returned by `sp.artist`; a successful lookup
yields a non-empty dict (it always carries `id` and `name`), hence truthy.
A falsy lookup result (`None`) is modelled as `Option.none` at use sites. -/
structure ArtistObj where
  id : List Char
  name : List Char
  genres : List (List Char)
deriving DecidableEq

/-- The value of `item["track"]` for one playlist item (`None` for removed
tracks is `Option.none` at use sites).  `artists` and `album` are accessed
by subscript in app.py, `name`/`id`/`popularity` via `.get`; `album` may be
JSON null (subscripting it raises `TypeError`). -/
structure RawTrack where
  name : Option (List Char)
  id : Option (List Char)
  artists : List SimpleArtist
  album : Option AlbumObj
  external_urls : ExtUrls
  popularity : Option PyVal
deriving DecidableEq

/-! ### Field extraction (app.py lines 88-110) -/

/-- Python `", ".join(genres)`. -/
def joinComma (genres : List (List Char)) : List Char :=
  List.intercalate commaSep genres

/-- app.py line 109:
`", ".join(artist_info.get("genres", [])) if artist_info else "No Genres"`.
`Option.none` is a falsy `artist_info` value; a successful lookup result is
a (truthy) artist object. -/
def genresField (artist_info : Option ArtistObj) : List Char :=
  match artist_info with
  | some a => joinComma a.genres
  | Option.none => noGenresStr

/-- app.py line 107:
`track["external_urls"].get("spotify", None) if track["external_urls"] else "No URL"`.
An absent key raises `KeyError` (the `.error` case); a null or empty dict is
falsy and yields the string `"No URL"`; otherwise `.get` yields the url or
Python `None` (the inner `Option`). -/
def extUrlField : ExtUrls → Except Unit (Option (List Char))
  | ExtUrls.absent => Except.error ()
  | ExtUrls.null => Except.ok (some noURLStr)
  | ExtUrls.dict d =>
    Except.ok (if d.isEmpty then some noURLStr else lookupA spotifyKey d)

/-- app.py line 97 (`track.get("popularity", 0)`) followed by lines 120-124:
`pd.to_numeric(value, errors='coerce')` on the cell. `NaN` is `Option.none`. -/
def to_numeric_coerce : PyVal → Option Int
  | PyVal.null => Option.none
  | PyVal.int n => some n
  | PyVal.str s => pythonInt s

/-- One row of the DataFrame built at line 118 (before column coercion). -/
structure TrackRow where
  track_name : List Char
  track_id : List Char
  artist : List Char
  artist_id : List Char
  album : List Char
  album_release_date : List Char
  release_year : Option Int
  external_url : Option (List Char)
  popularity : PyVal
  genres : List Char
deriving DecidableEq

/-- A row after the numeric coercion of lines 120-124 (the `Popularity`
column becomes numeric-or-NaN, then `fillna(0)`). -/
structure TrackRowC where
  track_name : List Char
  track_id : List Char
  artist : List Char
  artist_id : List Char
  album : List Char
  album_release_date : List Char
  release_year : Option Int
  external_url : Option (List Char)
  popularity : Option Int
  genres : List Char
deriving DecidableEq

/-- Lines 120-124: `df[col] = pd.to_numeric(df[col], errors='coerce').fillna(0)`
applied to the `Popularity` column of one row. -/
def coerceRow (r : TrackRow) : TrackRowC :=
  { track_name := r.track_name
    track_id := r.track_id
    artist := r.artist
    artist_id := r.artist_id
    album := r.album
    album_release_date := r.album_release_date
    release_year := r.release_year
    external_url := r.external_url
    popularity := some ((to_numeric_coerce r.popularity).getD 0)
    genres := r.genres }

/-- The end-to-end `Popularity` cell: line 97's `.get` default composed with
the coercion of lines 120-124; `Option.none` at the outside means the
`popularity` key was absent from the track dict. -/
def popularityCell (track_popularity : Option PyVal) : Option Int :=
  some ((to_numeric_coerce (track_popularity.getD (PyVal.int 0))).getD 0)

/-- app.py lines 88-111: building `track_data` for one non-null track.
`artist_info` is the current state of the Python variable of that name:
the outer `Option.none` means the variable was never assigned, so that
reading it at the `Genres` entry raises `NameError` (the `.error` case).
An absent `external_urls` key raises `KeyError` before that (the dict
literal evaluates its values in order, and line 89's subscripting of a null
album raises `TypeError` before the literal is reached). -/
def mkRow (track : RawTrack) (artist_info : Option (Option ArtistObj)) :
    Except Unit TrackRow :=
  match track.album with
  | Option.none => Except.error ()
  | some album =>
    let release_date := album.release_date
    let release_year := release_year_of release_date
    let track_name := track.name.getD unknownTrackStr
    let track_popularity := track.popularity.getD (PyVal.int 0)
    match extUrlField track.external_urls with
    | Except.error e => Except.error e
    | Except.ok ext =>
      match artist_info with
      | Option.none => Except.error ()
      | some ai =>
        Except.ok
          { track_name := track_name
            track_id := track.id.getD noIdStr
            artist := match track.artists with
              | a :: _ => a.name
              | [] => unknownArtistStr
            artist_id := match track.artists with
              | a :: _ => a.id
              | [] => unknownIdStr
            album := match track.album with
              | some al => al.name
              | Option.none => unknownAlbumStr
            album_release_date := release_date
            release_year := release_year
            external_url := ext
            popularity := track_popularity
            genres := genresField ai }

/-- app.py lines 74-111: the enrichment loop.  `artistLookup` embeds
`sp.artist`; its `.error` is a raised request error, its `.ok` value the
(possibly falsy) returned object.  The second argument is the state of the
Python variable `artist_info` (`Option.none` = never assigned).  The
`except` branch at lines 84-86 assigns only `audio_features`, so a failed
lookup leaves `artist_info` at its previous state; an empty `artists` list
makes `track["artists"][0]` raise `IndexError` inside the same `try`, with
the same effect.  Any error escaping `mkRow` propagates: the loop body is
not wrapped in a `try`. -/
def enrichLoop (artistLookup : List Char → Except Unit (Option ArtistObj)) :
    List (Option RawTrack) → Option (Option ArtistObj) →
    Except Unit (List TrackRow)
  | [], _ => Except.ok []
  | item :: rest, artist_info =>
    match item with
    | Option.none => enrichLoop artistLookup rest artist_info
    | some track =>
      let artist_info' :=
        match track.artists with
        | [] => artist_info
        | a :: _ =>
          match artistLookup a.id with
          | Except.error _ => artist_info
          | Except.ok v => some v
      match mkRow track artist_info' with
      | Except.error e => Except.error e
      | Except.ok row =>
        match enrichLoop artistLookup rest artist_info' with
        | Except.error e => Except.error e
        | Except.ok rows => Except.ok (row :: rows)

/-! ### The paginated track collector (app.py lines 25-42) -/

/-- What one `sp.playlist_tracks` call can produce once it returns:
a falsy response (`if not response: break`), a dict without an `items` key
(`'items' not in response: break`), or a dict with an items list. -/
inductive Response (α : Type) where
  | falsy
  | noItems
  | items (its : List α)
deriving DecidableEq

/-- app.py lines 25-42, `get_all_tracks`: the `while True` loop with
`offset` and the accumulated `results`, instrumented with the number of
page requests issued (second component).  `fetch` embeds
`sp.playlist_tracks(playlist_uri, offset=offset)`; a raised request error is
`.error` and is caught by the `except` (`break`).  A page's items are
appended before the `len(...) < 100` test, and `offset` advances by 100.
`fuel` bounds the number of iterations so the function is total; every
theorem below supplies enough fuel for the run to finish on its own. -/
def get_all_tracks_aux (fetch : Nat → Except Unit (Response α)) :
    Nat → Nat → List α → List α × Nat
  | 0, _, results => (results, 0)
  | fuel + 1, offset, results =>
    match fetch offset with
    | Except.error _ => (results, 1)
    | Except.ok Response.falsy => (results, 1)
    | Except.ok Response.noItems => (results, 1)
    | Except.ok (Response.items its) =>
      if its.length < 100 then (results ++ its, 1)
      else
        let r := get_all_tracks_aux fetch fuel (offset + 100) (results ++ its)
        (r.1, r.2 + 1)

def get_all_tracks (fetch : Nat → Except Unit (Response α)) (fuel : Nat) :
    List α × Nat :=
  get_all_tracks_aux fetch fuel 0 []

/-- A well-behaved tracks endpoint for a playlist whose item list is
`tracks`: the page at `offset` holds the next `min 100` remaining items
(the API's page size, spotipy's default `limit=100`). -/
def honestFetch (tracks : List α) (offset : Nat) : Except Unit (Response α) :=
  Except.ok (Response.items ((tracks.drop offset).take 100))

/-- The same endpoint, but the request for page index `j` (offset `100*j`)
raises a request error. -/
def failAt (tracks : List α) (j : Nat) (offset : Nat) :
    Except Unit (Response α) :=
  if offset < 100 * j then honestFetch tracks offset else Except.error ()

/-! ### Playlist metadata (app.py lines 52-65) -/

/-- The playlist object returned by `sp.playlist`; `description` via `.get`,
`images` a (possibly empty) list of image urls, `followers`/`total` via
chained `.get`s, `name` and `tracks`/`total` by subscript. -/
structure PlaylistInfo where
  name : List Char
  description : Option (List Char)
  images : List (List Char)
  followers_total : Option Nat
  tracks_total : Nat
deriving DecidableEq

structure Metadata where
  name : List Char
  description : List Char
  thumbnail : Option (List Char)
  likes : Nat
  total_tracks : Nat
deriving DecidableEq

/-- app.py lines 59-65: the `metadata` dict. -/
def mkMetadata (playlist_info : PlaylistInfo) : Metadata :=
  { name := playlist_info.name
    description := playlist_info.description.getD noDescriptionStr
    thumbnail := playlist_info.images.head?
    likes := playlist_info.followers_total.getD 0
    total_tracks := playlist_info.tracks_total }

/-! ### get_playlist_data and main (app.py lines 44-129, 182-201) -/

/-- The `st.error` messages `get_playlist_data` can emit. -/
inductive ErrMsg where
  | processingLink
  | couldNotRetrieveInfo
  | couldNotRetrieveTracks
  | noTrackData
deriving DecidableEq

/-- The spotipy client: the three endpoints app.py calls.  `.error` is a
raised request exception. -/
structure Api where
  playlist : List Char → Except Unit PlaylistInfo
  playlist_tracks : List Char → Nat → Except Unit (Response (Option RawTrack))
  artist : List Char → Except Unit (Option ArtistObj)

/-- app.py lines 113-124: row-list to table.  Zero rows emit the
"No track data available to create DataFrame." message and return the empty
DataFrame; otherwise the `Popularity` column is coerced. -/
def assemble (metadata : Metadata) (rows : List TrackRow) :
    List ErrMsg × Option Metadata × Option (List TrackRowC) :=
  if rows.isEmpty then ([ErrMsg.noTrackData], some metadata, some [])
  else ([], some metadata, some (rows.map coerceRow))

/-- app.py lines 44-129, `get_playlist_data`.  Python always returns a
`(metadata, df)` pair; `(None, None)` is `(Option.none, Option.none)` and an
empty `pd.DataFrame()` is `some []`.  The first component records the
`st.error` messages emitted.  An uncaught exception escaping the function
(only the enrichment loop can raise one) is the outer `.error`.  The
`try`/`except` around line 47 is embedded by `get_playlist_uri` alone:
`str.split` cannot raise on a string, so the `ErrMsg.processingLink` branch
of the handler is unreachable. -/
def get_playlist_data (fuel : Nat) (api : Api) (playlist_link : List Char) :
    Except Unit (List ErrMsg × Option Metadata × Option (List TrackRowC)) :=
  let playlist_uri := get_playlist_uri playlist_link
  match api.playlist playlist_uri with
  | Except.error _ =>
    Except.ok ([ErrMsg.couldNotRetrieveInfo], Option.none, Option.none)
  | Except.ok playlist_info =>
    let metadata := mkMetadata playlist_info
    let tracks_data :=
      (get_all_tracks (fun offset => api.playlist_tracks playlist_uri offset)
        fuel).1
    if tracks_data.isEmpty then
      Except.ok ([ErrMsg.couldNotRetrieveTracks], some metadata, some [])
    else
      match enrichLoop api.artist tracks_data Option.none with
      | Except.error e => Except.error e
      | Except.ok rows => Except.ok (assemble metadata rows)

/-- app.py line 196: `if df is not None and not df.empty`. -/
def render_decision : Option (List TrackRowC) → Bool
  | some df => !df.isEmpty
  | Option.none => false

/-- Python `pat in s` for strings: `pat` occurs as a contiguous substring. -/
def containsSub (pat : List Char) : List Char → Bool
  | [] => pat.isEmpty
  | c :: rest => ((c :: rest).take pat.length == pat) || containsSub pat rest

/-- What one run of `main` (app.py lines 182-201) does with the input. -/
inductive MainAction where
  | noInput
  | validationError
  | visualize (metadata : Metadata) (df : List TrackRowC)
  | noDataError
  | appError
deriving DecidableEq

/-- app.py lines 182-201: link validation, the call to `get_playlist_data`,
the `df is not None and not df.empty` gate, and the outer `try` whose
handler shows "An error occurred".  (`visualize_data` subscripting a `None`
metadata would raise inside that `try` as well.) -/
def main_run (fuel : Nat) (api : Api) (playlist_link : List Char) :
    MainAction :=
  if playlist_link ≠ [] ∧ containsSub spotifySubstr playlist_link = false then
    MainAction.validationError
  else if playlist_link.isEmpty then MainAction.noInput
  else
    match get_playlist_data fuel api playlist_link with
    | Except.error _ => MainAction.appError
    | Except.ok (_, metadata, df) =>
      if render_decision df then
        match metadata, df with
        | some m, some rows => MainAction.visualize m rows
        | _, _ => MainAction.appError
      else MainAction.noDataError

/-! ### Concrete sample data used by witnesses and counterexamples -/

def sampleTrackName : List Char := "T".toList

def sampleTrackId : List Char := "t1".toList

def sampleArtistId : List Char := "a1".toList

def sampleArtistId2 : List Char := "a2".toList

def sampleArtistName : List Char := "Artist".toList

def sampleArtistName2 : List Char := "B".toList

def sampleAlbumName : List Char := "Al".toList

def sampleDate : List Char := "2003-01-01".toList

def sampleUrl : List Char := "http://u".toList

def rockStr : List Char := "rock".toList

def otherKey : List Char := "other".toList

def samplePlaylistName : List Char := "Test Mix".toList

def abcStr : List Char := "abc".toList

def yStr : List Char := "y".toList

def badLink : List Char := "https://open.spotify.com/playlist/abc?si=x/y".toList

def playlistSeg : List Char := "/playlist/".toList

def playlistWord : List Char := "playlist".toList

def qMarkStr : List Char := "?".toList

def preStr : List Char := "https://open.spotify.com".toList

def siStr : List Char := "si=z".toList

def goodLink : List Char := "https://open.spotify.com/playlist/abc?si=z".toList

def numStr200 : List Char := "200".toList

def abcdStr : List Char := "abcd".toList

/-- An artist whose lookup succeeds, with one genre. -/
def a0 : ArtistObj :=
  { id := sampleArtistId, name := sampleArtistName, genres := [rockStr] }

/-- An artist whose lookup succeeds, with an empty genre list. -/
def aNoGenres : ArtistObj :=
  { id := sampleArtistId, name := sampleArtistName, genres := [] }

def rockCommaOther : List Char := "rock, other".toList

/-- An artist whose lookup succeeds, with two genres. -/
def aTwoGenres : ArtistObj :=
  { id := sampleArtistId, name := sampleArtistName
    genres := [rockStr, otherKey] }

/-- A fully well-formed raw track (primary artist `a1`). -/
def t0 : RawTrack :=
  { name := some sampleTrackName
    id := some sampleTrackId
    artists := [{ id := sampleArtistId, name := sampleArtistName }]
    album := some { name := sampleAlbumName, release_date := sampleDate }
    external_urls := ExtUrls.dict [(spotifyKey, sampleUrl)]
    popularity := some (PyVal.int 87) }

/-- Like `t0` but with a different primary artist `a2`. -/
def t2 : RawTrack :=
  { t0 with artists := [{ id := sampleArtistId2, name := sampleArtistName2 }] }

def p0 : PlaylistInfo :=
  { name := samplePlaylistName
    description := Option.none
    images := []
    followers_total := Option.none
    tracks_total := 1 }

/-- A server that succeeds on every request: the playlist holds the single
item `t0`, and every artist lookup returns `a0`. -/
def api0 : Api :=
  { playlist := fun _ => Except.ok p0
    playlist_tracks := fun _ offset => honestFetch [some t0] offset
    artist := fun _ => Except.ok (some a0) }

/-- The raw row that enriching `t0` with `a0` produces. -/
def row0 : TrackRow :=
  { track_name := sampleTrackName
    track_id := sampleTrackId
    artist := sampleArtistName
    artist_id := sampleArtistId
    album := sampleAlbumName
    album_release_date := sampleDate
    release_year := some 2003
    external_url := some sampleUrl
    popularity := PyVal.int 87
    genres := rockStr }

/-! ### Collector lemmas -/

/-- Running the collector against an honest server: starting from `offset`
it gathers the remaining items and issues `(remaining / 100) + 1` requests,
for any sufficient fuel. -/
theorem get_all_tracks_aux_honest {α : Type} (tracks : List α) :
    ∀ (fuel offset : Nat) (acc : List α),
      (tracks.length - offset) / 100 + 1 ≤ fuel →
      get_all_tracks_aux (honestFetch tracks) fuel offset acc =
        (acc ++ tracks.drop offset, (tracks.length - offset) / 100 + 1) := by
  intro fuel
  induction fuel with
  | zero => intro offset acc h; omega
  | succ fuel ih =>
    intro offset acc hfuel
    have hplen : ((tracks.drop offset).take 100).length
        = min 100 (tracks.length - offset) := by
      simp [List.length_take, List.length_drop]
    by_cases hlt : tracks.length - offset < 100
    · have hall : (tracks.drop offset).take 100 = tracks.drop offset := by
        apply List.take_of_length_le
        simp [List.length_drop]; omega
      have hstop : (tracks.drop offset).length < 100 := by
        simp [List.length_drop]; omega
      have hcount : (tracks.length - offset) / 100 = 0 := Nat.div_eq_of_lt hlt
      simp only [get_all_tracks_aux, honestFetch, hall]
      rw [if_pos hstop, hcount]
    · have hge : 100 ≤ tracks.length - offset := by omega
      have hfull : ¬ ((tracks.drop offset).take 100).length < 100 := by omega
      have hrec := ih (offset + 100) (acc ++ (tracks.drop offset).take 100)
        (by
          have := Nat.div_eq_sub_div (by omega : 0 < 100) hge
          omega)
      simp only [get_all_tracks_aux, honestFetch, hfull, if_false]
      rw [hrec]
      have hjoin : (acc ++ (tracks.drop offset).take 100)
          ++ tracks.drop (offset + 100) = acc ++ tracks.drop offset := by
        rw [List.append_assoc]
        have hdd : tracks.drop (offset + 100)
            = (tracks.drop offset).drop 100 := by
          rw [List.drop_drop, Nat.add_comm]
        rw [hdd, List.take_append_drop]
      have hcnt : tracks.length - (offset + 100)
          = (tracks.length - offset) - 100 := by omega
      have := Nat.div_eq_sub_div (by omega : 0 < 100) hge
      simp [hjoin, hcnt]
      omega

/-- Running the collector against a server that fails the request at page
index `j` (offset `100 * j`), all earlier pages being full: starting
`k` pages before the failure, it gathers those `k` full pages and issues
`k + 1` requests (the last one failing). -/
theorem get_all_tracks_aux_failAt {α : Type} (tracks : List α) (j : Nat)
    (hj : 100 * j ≤ tracks.length) :
    ∀ (k offset : Nat) (acc : List α) (fuel : Nat),
      offset + 100 * k = 100 * j → k + 1 ≤ fuel →
      get_all_tracks_aux (failAt tracks j) fuel offset acc =
        (acc ++ (tracks.drop offset).take (100 * k), k + 1) := by
  intro k
  induction k with
  | zero =>
    intro offset acc fuel hoff hfuel
    obtain ⟨f, rfl⟩ : ∃ f, fuel = f + 1 := ⟨fuel - 1, by omega⟩
    have hstop : ¬ offset < 100 * j := by omega
    simp [get_all_tracks_aux, failAt, hstop]
  | succ k ih =>
    intro offset acc fuel hoff hfuel
    obtain ⟨f, rfl⟩ : ∃ f, fuel = f + 1 := ⟨fuel - 1, by omega⟩
    have hofflt : offset < 100 * j := by omega
    have hplen : ((tracks.drop offset).take 100).length
        = min 100 (tracks.length - offset) := by
      simp [List.length_take, List.length_drop]
    have hfull : ¬ ((tracks.drop offset).take 100).length < 100 := by omega
    have hrec := ih (offset + 100) (acc ++ (tracks.drop offset).take 100) f
      (by omega) (by omega)
    simp only [get_all_tracks_aux, failAt, if_pos hofflt, honestFetch, hfull,
      if_false]
    rw [hrec]
    have hjoin : (acc ++ (tracks.drop offset).take 100)
        ++ ((tracks.drop (offset + 100)).take (100 * k))
        = acc ++ (tracks.drop offset).take (100 * (k + 1)) := by
      rw [List.append_assoc]
      have hdd : tracks.drop (offset + 100)
          = (tracks.drop offset).drop 100 := by
        rw [List.drop_drop, Nat.add_comm]
      have hadd : 100 * (k + 1) = 100 + 100 * k := by ring
      rw [hdd, hadd, List.take_add]
    simp [hjoin]

/-- Claim C2: for every playlist with N tracks served by an honest endpoint
in pages of size 100 and N in {0, 1, 99, 100, 101, 250}, the collector
issues exactly ceil(N/100) page requests when N is not a multiple of 100
and N/100 + 1 when it is (one request for N = 0), collects exactly the N
items in order, and terminates: the run finishes identically for every
sufficient fuel bound. -/
theorem C2_collector (N : Nat) (_hN : N ∈ [0, 1, 99, 100, 101, 250])
    (tracks : List (Option RawTrack)) (hlen : tracks.length = N)
    (fuel : Nat) (hfuel : N / 100 + 1 ≤ fuel) :
    get_all_tracks (honestFetch tracks) fuel =
      (tracks, if N % 100 = 0 then N / 100 + 1 else (N + 99) / 100) := by
  have h := get_all_tracks_aux_honest tracks fuel 0 []
    (by simp [hlen]; omega)
  unfold get_all_tracks
  rw [h]
  simp only [List.drop_zero, List.nil_append, hlen, Nat.sub_zero]
  by_cases h0 : N % 100 = 0
  · rw [if_pos h0]
  · rw [if_neg h0]
    have : (N + 99) / 100 = N / 100 + 1 := by omega
    rw [this]

/-- Witness for C2 at N = 250 (and the page requests at offsets 0, 100,
200 observed: 3 = ceil(250/100) requests, 250 items). -/
theorem C2_collector_witness :
    get_all_tracks (honestFetch (List.replicate 250 (some t0))) 3 =
      (List.replicate 250 (some t0), 3) := by
  have h := C2_collector 250 (by decide) (List.replicate 250 (some t0))
    (by rw [List.length_replicate]) 3 (by omega)
  have hif : (if (250 : Nat) % 100 = 0 then 250 / 100 + 1
      else (250 + 99) / 100) = 3 := by norm_num
  rw [hif] at h
  exact h

/-- Claim C3: if the page request at index j fails after the collector has
accumulated K = 100 * j items (each earlier page full), the error is caught
and exactly those K items are returned, with j + 1 requests issued; the
collector's return type is a plain list, so no exception escapes it. -/
theorem C3_partial (tracks : List (Option RawTrack)) (j fuel : Nat)
    (h1 : 100 * j ≤ tracks.length) (h2 : j + 1 ≤ fuel) :
    get_all_tracks (failAt tracks j) fuel = (tracks.take (100 * j), j + 1)
      ∧ (tracks.take (100 * j)).length = 100 * j := by
  constructor
  · have h := get_all_tracks_aux_failAt tracks j h1 j 0 [] fuel (by omega) h2
    unfold get_all_tracks
    rw [h]
    simp
  · simp [List.length_take]
    omega

/-- Witness for C3: the request at page index 2 fails after 200 items. -/
theorem C3_partial_witness :
    get_all_tracks (failAt (List.replicate 250 (some t0)) 2) 3 =
      (List.replicate 200 (some t0), 3) := by
  have h := C3_partial (List.replicate 250 (some t0)) 2 3
    (by rw [List.length_replicate]; omega) (by omega)
  have h1 := h.1
  rw [show (100 * 2 : Nat) = 200 by norm_num, List.take_replicate] at h1
  rw [show min 200 250 = 200 by norm_num] at h1
  exact h1

/-- Claim C1, evaluated on the code: the `except` branch at app.py lines
84-86 assigns `audio_features` instead of `artist_info`, so (first
conjunct) a failed primary-artist lookup on the first track leaves
`artist_info` unbound and reading it at the `Genres` entry raises
`NameError`, aborting the whole enrichment batch — the track is not kept
with "No Genres"; and (second conjunct) a failed lookup on a later track
silently reuses the previous track's artist object, recording the stale
genre string "rock" rather than "No Genres" for track `t2`. -/
theorem C1_code_eval :
    enrichLoop (fun _ => Except.error ()) [some t0] Option.none
        = Except.error ()
    ∧ (enrichLoop
          (fun i => if i = sampleArtistId then Except.ok (some a0)
            else Except.error ())
          [some t0, some t2] Option.none).map
          (fun rows => rows.map (fun r => r.genres))
        = Except.ok [rockStr, rockStr]
    ∧ rockStr ≠ noGenresStr :=
  ⟨rfl, rfl, by decide⟩

/-- Counterexample to claim C4: a successful artist lookup returning a
(truthy) artist object with an empty genre list surfaces the empty string
as the track's genre field, not the marker "No Genres". -/
theorem C4_counterexample :
    (enrichLoop (fun _ => Except.ok (some aNoGenres)) [some t0]
        Option.none).map (fun rows => rows.map (fun r => r.genres))
      = Except.ok [[]]
    ∧ ([] : List Char) ≠ noGenresStr :=
  ⟨rfl, by decide⟩

/-- Claim C4 (amended): when the artist lookup yields a truthy object the
genres are joined with ", " — which is the empty string (not "No Genres")
when the genre set is empty; the marker "No Genres" is produced only when
`artist_info` is falsy. -/
theorem C4_genres (a : ArtistObj) :
    genresField (some a) = joinComma a.genres
    ∧ genresField Option.none = noGenresStr
    ∧ genresField (some aNoGenres) = []
    ∧ genresField (some aTwoGenres) = rockCommaOther :=
  ⟨rfl, rfl, rfl, by decide⟩

/-- Witness for C4: the amended genre rule evaluated at the sample artist. -/
theorem C4_genres_witness :
    genresField (some a0) = joinComma a0.genres
    ∧ genresField Option.none = noGenresStr :=
  ⟨(C4_genres a0).1, (C4_genres a0).2.1⟩

/-- Claim C9: the table's Popularity value is 0 when the popularity field
is absent, null, or non-numeric, equals the original value when numeric
(87 round-trips to 87), is always non-null after coercion, and is exactly
what the row pipeline (`mkRow` then the column coercion) stores in every
successfully enriched row. -/
theorem C9_popularity :
    popularityCell Option.none = some 0
    ∧ popularityCell (some PyVal.null) = some 0
    ∧ popularityCell (some (PyVal.str abcStr)) = some 0
    ∧ (∀ n : Int, popularityCell (some (PyVal.int n)) = some n)
    ∧ popularityCell (some (PyVal.int 87)) = some 87
    ∧ (∀ p : Option PyVal, (popularityCell p).isSome = true)
    ∧ (∀ (t : RawTrack) (ai : Option (Option ArtistObj)) (row : TrackRow),
        mkRow t ai = Except.ok row →
        (coerceRow row).popularity = popularityCell t.popularity) := by
  refine ⟨rfl, rfl, by decide, fun n => rfl, rfl, fun p => rfl, ?_⟩
  intro t ai row h
  simp only [mkRow] at h
  split at h
  · simp at h
  · split at h
    · simp at h
    · split at h
      · simp at h
      · injection h with h'
        subst h'
        rfl

/-- Witness for C9: the pipeline fact applied to the sample track `t0`
(popularity 87), which enriches to `row0`. -/
theorem C9_popularity_witness :
    (coerceRow row0).popularity = popularityCell t0.popularity :=
  C9_popularity.2.2.2.2.2.2 t0 (some (some a0)) row0 (by rfl)

/-- Counterexample to claim C10: a track whose `external_urls` key is
absent does not get the field "No URL" — subscripting raises `KeyError`
and no row is produced at all. -/
theorem C10_counterexample :
    extUrlField ExtUrls.absent = Except.error ()
    ∧ extUrlField ExtUrls.absent ≠ Except.ok (some noURLStr) :=
  ⟨rfl, fun h => Except.noConfusion h⟩

/-- Claim C10 (amended): a present-but-falsy `external_urls` mapping (null
or the empty dict) yields the string "No URL"; a present non-empty mapping
lacking the "spotify" key yields Python `None`; an absent key raises
`KeyError` (aborting the enrichment of that batch). -/
theorem C10_external_url :
    extUrlField ExtUrls.absent = Except.error ()
    ∧ extUrlField ExtUrls.null = Except.ok (some noURLStr)
    ∧ extUrlField (ExtUrls.dict []) = Except.ok (some noURLStr)
    ∧ (∀ d, d ≠ [] → lookupA spotifyKey d = Option.none →
        extUrlField (ExtUrls.dict d) = Except.ok Option.none)
    ∧ (∀ d v, d ≠ [] → lookupA spotifyKey d = some v →
        extUrlField (ExtUrls.dict d) = Except.ok (some v)) := by
  refine ⟨rfl, rfl, rfl, ?_, ?_⟩
  · intro d hd hl
    cases d with
    | nil => exact absurd rfl hd
    | cons x xs => simp [extUrlField, hl]
  · intro d v hd hl
    cases d with
    | nil => exact absurd rfl hd
    | cons x xs => simp [extUrlField, hl]

/-- Witness for C10: a non-empty mapping without the "spotify" key gives
`None`; one with the key gives its url. -/
theorem C10_external_url_witness :
    extUrlField (ExtUrls.dict [(otherKey, sampleUrl)]) = Except.ok Option.none
    ∧ extUrlField (ExtUrls.dict [(spotifyKey, sampleUrl)])
        = Except.ok (some sampleUrl) :=
  ⟨C10_external_url.2.2.2.1 [(otherKey, sampleUrl)] (by decide) (by decide),
    C10_external_url.2.2.2.2 [(spotifyKey, sampleUrl)] sampleUrl (by decide)
      (by decide)⟩

/-- Counterexample to claim C5: the caller treats an empty-but-present
table exactly like an absent one — the render gate of app.py line 196 is
false for both, so an empty table hits the "No data to visualize." error
branch instead of being rendered. -/
theorem C5_counterexample :
    render_decision (some ([] : List TrackRowC)) = render_decision Option.none
    ∧ render_decision (some ([] : List TrackRowC)) = false :=
  ⟨rfl, rfl⟩

/-- Claim C5 (amended): when enrichment produces zero rows the assembler
signals "no data" and returns an empty-but-present table (not a malformed
one); however the caller treats an empty-but-present table and an absent
table alike — both fail the render gate and produce the "No data to
visualize." error — and only a non-empty table is rendered. -/
theorem C5_no_data (metadata : Metadata) :
    assemble metadata [] = ([ErrMsg.noTrackData], some metadata, some [])
    ∧ render_decision (some ([] : List TrackRowC)) = false
    ∧ render_decision Option.none = false
    ∧ (∀ df : List TrackRowC, df ≠ [] → render_decision (some df) = true) := by
  refine ⟨rfl, rfl, rfl, ?_⟩
  intro df hdf
  cases df with
  | nil => exact absurd rfl hdf
  | cons x xs => rfl

/-- Witness for C5: the assembler's no-data signal at a concrete metadata,
and the render gate passing on a concrete one-row table. -/
theorem C5_no_data_witness :
    assemble (mkMetadata p0) []
        = ([ErrMsg.noTrackData], some (mkMetadata p0), some [])
    ∧ render_decision (some [coerceRow row0]) = true :=
  ⟨(C5_no_data (mkMetadata p0)).1,
    (C5_no_data (mkMetadata p0)).2.2.2 [coerceRow row0] (by simp)⟩

/-- Counterexample to claim C7: on the empty URL the parser does not fail
and does not halt the pipeline — it returns the empty identifier and
`get_playlist_data` runs to completion against a server that accepts that
identifier, producing a full table and no error message at all. -/
theorem C7_counterexample :
    get_playlist_uri [] = []
    ∧ get_playlist_data 1 api0 []
        = Except.ok ([], some (mkMetadata p0), some [coerceRow row0]) :=
  ⟨rfl, rfl⟩

/-- Claim C7 (amended): `str.split` cannot raise on a string, so the
parse-error handler of app.py lines 48-50 is dead code: for every input
URL — empty or malformed included — the parser yields an identifier and
`get_playlist_data` never emits the "Error processing playlist link"
message; errors for bad identifiers surface only at the later metadata
fetch, and non-empty links lacking "spotify.com/playlist/" are rejected by
`main`'s validation instead. -/
theorem C7_no_parse_error (fuel : Nat) (api : Api) (playlist_link : List Char)
    (msgs : List ErrMsg) (m : Option Metadata) (d : Option (List TrackRowC))
    (h : get_playlist_data fuel api playlist_link = Except.ok (msgs, m, d)) :
    ErrMsg.processingLink ∉ msgs := by
  simp only [get_playlist_data] at h
  split at h
  · simp only [Except.ok.injEq, Prod.mk.injEq] at h
    rw [← h.1]
    decide
  · split at h
    · simp only [Except.ok.injEq, Prod.mk.injEq] at h
      rw [← h.1]
      decide
    · split at h
      · simp at h
      · simp only [Except.ok.injEq, assemble] at h
        split at h
        · simp only [Prod.mk.injEq] at h
          rw [← h.1]
          decide
        · simp only [Prod.mk.injEq] at h
          rw [← h.1]
          decide

/-- Witness for C7: the dead-branch fact applied to the run of the
counterexample input. -/
theorem C7_no_parse_error_witness :
    ErrMsg.processingLink ∉ ([] : List ErrMsg) :=
  C7_no_parse_error 1 api0 [] [] (some (mkMetadata p0))
    (some [coerceRow row0]) rfl

/-! ### Lemmas about `splitOnChar` (for the URL parser) -/

theorem splitOnChar_ne_nil (sep : Char) (l : List Char) :
    splitOnChar sep l ≠ [] := by
  cases l with
  | nil => simp [splitOnChar]
  | cons c rest =>
    simp only [splitOnChar]
    split <;> simp

theorem splitOnChar_of_not_mem (sep : Char) (l : List Char) (h : sep ∉ l) :
    splitOnChar sep l = [l] := by
  induction l with
  | nil => rfl
  | cons c rest ih =>
    have hc : c ≠ sep := fun hcc => h (hcc ▸ List.mem_cons_self c rest)
    have hr : sep ∉ rest := fun hm => h (List.mem_cons_of_mem c hm)
    simp only [splitOnChar, ih hr]
    rw [if_neg hc]
    rfl

theorem two_le_length_splitOnChar (sep : Char) (l : List Char)
    (h : sep ∈ l) : 2 ≤ (splitOnChar sep l).length := by
  induction l with
  | nil => cases h
  | cons c rest ih =>
    have hpos : 0 < (splitOnChar sep rest).length :=
      List.length_pos.mpr (splitOnChar_ne_nil sep rest)
    simp only [splitOnChar]
    by_cases hc : c = sep
    · rw [if_pos hc]
      simp only [List.length_cons]
      omega
    · rw [if_neg hc]
      have hmem : sep ∈ rest := by
        rcases List.mem_cons.mp h with h1 | h2
        · exact absurd h1.symm hc
        · exact h2
      have h2 := ih hmem
      simp only [List.length_cons, List.length_tail]
      omega

theorem getLastD_congr {α : Type} (l : List α) (h : l ≠ []) (d d' : α) :
    l.getLastD d = l.getLastD d' := by
  cases l with
  | nil => exact absurd rfl h
  | cons x xs => rw [List.getLastD_cons, List.getLastD_cons]

/-- The last piece of a split at a separator occurrence: everything before
the last occurrence is irrelevant. -/
theorem splitOnChar_getLastD_append (sep : Char) (a b : List Char) :
    (splitOnChar sep (a ++ sep :: b)).getLastD []
      = (splitOnChar sep b).getLastD [] := by
  induction a with
  | nil =>
    have hstep : splitOnChar sep (sep :: b) = [] :: splitOnChar sep b := by
      simp [splitOnChar]
    rw [List.nil_append, hstep, List.getLastD_cons]
  | cons c a' ih =>
    simp only [List.cons_append, splitOnChar, List.append_eq]
    obtain ⟨w, ws, hr⟩ :=
      List.exists_cons_of_ne_nil (splitOnChar_ne_nil sep (a' ++ sep :: b))
    have hlen : 2 ≤ (splitOnChar sep (a' ++ sep :: b)).length :=
      two_le_length_splitOnChar sep _ (by simp)
    rw [hr] at hlen ih ⊢
    have hws : ws ≠ [] := by
      cases ws with
      | nil => simp at hlen
      | cons y ys => simp
    rw [List.getLastD_cons] at ih
    by_cases hc : c = sep
    · rw [if_pos hc, List.getLastD_cons, List.getLastD_cons]
      exact ih
    · rw [if_neg hc]
      simp only [List.headD_cons, List.tail_cons, List.getLastD_cons]
      rw [getLastD_congr ws hws (c :: w) w]
      exact ih

/-- The first piece of a split at a separator occurrence is everything
before the first occurrence. -/
theorem splitOnChar_headD_append (sep : Char) (a b : List Char)
    (h : sep ∉ a) :
    (splitOnChar sep (a ++ sep :: b)).headD [] = a := by
  induction a with
  | nil =>
    simp [splitOnChar]
  | cons c a' ih =>
    have hc : c ≠ sep := fun hcc => h (hcc ▸ List.mem_cons_self c a')
    have ha' : sep ∉ a' := fun hm => h (List.mem_cons_of_mem c hm)
    simp only [List.cons_append, splitOnChar, List.append_eq]
    obtain ⟨w, ws, hr⟩ :=
      List.exists_cons_of_ne_nil (splitOnChar_ne_nil sep (a' ++ sep :: b))
    have ihw := ih ha'
    rw [hr] at ihw ⊢
    rw [if_neg hc]
    simp only [List.headD_cons] at ihw ⊢
    rw [ihw]

/-- The parser on a link of the shape `A ++ "/" ++ id ++ "?" ++ q` where
the part after the last slash is `id ++ "?" ++ q`. -/
theorem get_playlist_uri_split (pre id q : List Char)
    (hid1 : ('/' : Char) ∉ id) (hid2 : ('?' : Char) ∉ id)
    (hq : ('/' : Char) ∉ q) :
    get_playlist_uri (pre ++ '/' :: (id ++ '?' :: q)) = id := by
  have hB : ('/' : Char) ∉ id ++ '?' :: q := by
    intro hmem
    rcases List.mem_append.mp hmem with h1 | h2
    · exact hid1 h1
    · rcases List.mem_cons.mp h2 with h3 | h4
      · exact absurd h3 (by decide)
      · exact hq h4
  unfold get_playlist_uri
  rw [splitOnChar_getLastD_append]
  rw [splitOnChar_of_not_mem _ _ hB]
  simp only [List.getLastD_cons, List.getLastD_nil]
  exact splitOnChar_headD_append '?' id q hid2

/-- Counterexample to claim C6: the URL
`https://open.spotify.com/playlist/abc?si=x/y` has the claimed form
`.../playlist/<id>?<query>` with `<id> = "abc"` (no `/` or `?` in it), yet
the parser returns `"y"`, the query fragment after its slash, not `"abc"`. -/
theorem C6_counterexample :
    get_playlist_uri badLink = yStr ∧ yStr ≠ abcStr :=
  ⟨rfl, by decide⟩

/-- Claim C6 (amended): for every playlist URL of the form
`.../playlist/<id>?<query>` where `<id>` contains no `/` or `?` and the
query contains no `/`, the parser returns exactly `<id>` — the segment
after the last `/` with the query stripped.  (A query containing `/` shifts
the result to whatever follows the last slash.) -/
theorem C6_extract_id (pre id q : List Char)
    (hid1 : ('/' : Char) ∉ id) (hid2 : ('?' : Char) ∉ id)
    (hq : ('/' : Char) ∉ q) :
    get_playlist_uri (pre ++ playlistSeg ++ id ++ qMarkStr ++ q) = id := by
  have hseg : playlistSeg = ('/' :: playlistWord) ++ ['/'] := by decide
  have hqm : qMarkStr = ['?'] := by decide
  have heq : pre ++ playlistSeg ++ id ++ qMarkStr ++ q
      = (pre ++ '/' :: playlistWord) ++ '/' :: (id ++ '?' :: q) := by
    rw [hseg, hqm]
    simp [List.append_assoc]
  rw [heq]
  exact get_playlist_uri_split (pre ++ '/' :: playlistWord) id q hid1 hid2 hq

/-- Witness for C6: a well-formed link whose query has no slash parses to
its identifier. -/
theorem C6_extract_id_witness : get_playlist_uri goodLink = abcStr := by
  have h := C6_extract_id preStr abcStr siStr (by decide) (by decide) (by decide)
  have hlink : goodLink = preStr ++ playlistSeg ++ abcStr ++ qMarkStr ++ siStr :=
    by decide
  rw [hlink]
  exact h

/-! ### Lemmas about `pythonInt` (for the release year) -/

theorem not_isWhitespace_of_isDigit (c : Char) (h : c.isDigit = true) :
    c.isWhitespace = false := by
  by_contra h'
  rw [Bool.not_eq_false] at h'
  have h4 : c = ' ' ∨ c = '\t' ∨ c = '\r' ∨ c = '\n' := by
    simp [Char.isWhitespace] at h'
    tauto
  rcases h4 with h1 | h1 | h1 | h1 <;> subst h1 <;> exact absurd h (by decide)

theorem mem_dropWhile_of_mem {α : Type} (p : α → Bool) (l : List α) (c : α)
    (hm : c ∈ l) (hp : p c = false) : c ∈ l.dropWhile p := by
  induction l with
  | nil => cases hm
  | cons x xs ih =>
    rw [List.dropWhile_cons]
    by_cases hx : p x = true
    · rw [if_pos hx]
      rcases List.mem_cons.mp hm with h1 | h2
      · subst h1
        rw [hp] at hx
        cases hx
      · exact ih h2
    · rw [if_neg hx]
      exact hm

theorem mem_pyStrip_of_mem (l : List Char) (c : Char) (hm : c ∈ l)
    (hw : c.isWhitespace = false) : c ∈ pyStrip l := by
  unfold pyStrip
  rw [List.mem_reverse]
  apply mem_dropWhile_of_mem _ _ _ _ hw
  rw [List.mem_reverse]
  exact mem_dropWhile_of_mem _ _ _ hm hw

theorem dropWhile_eq_self_of_forall {α : Type} (p : α → Bool) (l : List α)
    (h : ∀ c ∈ l, p c = false) : l.dropWhile p = l := by
  cases l with
  | nil => rfl
  | cons x xs =>
    rw [List.dropWhile_cons, if_neg]
    simp [h x (List.mem_cons_self x xs)]

theorem pyStrip_eq_self (l : List Char)
    (h : ∀ c ∈ l, c.isWhitespace = false) : pyStrip l = l := by
  unfold pyStrip
  rw [dropWhile_eq_self_of_forall _ _ h]
  rw [dropWhile_eq_self_of_forall _ _
    (fun c hc => h c (List.mem_reverse.mp hc))]
  exact List.reverse_reverse l

theorem digitsCont_all_digits (l : List Char)
    (h : ∀ c ∈ l, c.isDigit = true) :
    ∀ acc, digitsCont true acc l
      = some (l.foldl (fun n c => n * 10 + (c.toNat - 48)) acc) := by
  induction l with
  | nil => intro acc; rfl
  | cons c rest ih =>
    intro acc
    have hc := h c (List.mem_cons_self c rest)
    simp only [digitsCont, List.foldl_cons]
    rw [if_pos hc]
    exact ih (fun x hx => h x (List.mem_cons_of_mem c hx)) _

theorem parseDigits_all_digits (c : Char) (rest : List Char)
    (h : ∀ x ∈ c :: rest, x.isDigit = true) :
    parseDigits (c :: rest) = some (decVal (c :: rest)) := by
  have hc := h c (List.mem_cons_self c rest)
  simp only [parseDigits]
  rw [if_pos hc]
  rw [digitsCont_all_digits rest (fun x hx => h x (List.mem_cons_of_mem c hx))]
  unfold decVal
  rw [List.foldl_cons]
  have hz : (0 : Nat) * 10 + (c.toNat - 48) = c.toNat - 48 := by omega
  rw [hz]

theorem digitsCont_none (c : Char) (hd : c.isDigit = false) (hu : c ≠ '_') :
    ∀ (l : List Char), c ∈ l → ∀ (prev : Bool) (acc : Nat),
      digitsCont prev acc l = Option.none := by
  intro l
  induction l with
  | nil => intro hm; cases hm
  | cons x xs ih =>
    intro hm prev acc
    simp only [digitsCont]
    rcases List.mem_cons.mp hm with h1 | h2
    · subst h1
      rw [if_neg (by simp [hd]), if_neg (fun hx => hu hx.1)]
    · by_cases hx : x.isDigit = true
      · rw [if_pos hx]
        exact ih h2 _ _
      · rw [if_neg hx]
        by_cases hx2 : x = '_' ∧ prev = true
        · rw [if_pos hx2]
          exact ih h2 _ _
        · rw [if_neg hx2]

theorem parseDigits_none (c : Char) (hd : c.isDigit = false) (hu : c ≠ '_')
    (l : List Char) (hm : c ∈ l) : parseDigits l = Option.none := by
  cases l with
  | nil => cases hm
  | cons x xs =>
    simp only [parseDigits]
    rcases List.mem_cons.mp hm with h1 | h2
    · subst h1
      rw [if_neg (by simp [hd])]
    · by_cases hx : x.isDigit = true
      · rw [if_pos hx]
        exact digitsCont_none c hd hu xs h2 true _
      · rw [if_neg hx]

theorem pythonInt_all_digits (s : List Char) (hne : s ≠ [])
    (h : ∀ c ∈ s, c.isDigit = true) :
    pythonInt s = some ((decVal s : Nat) : Int) := by
  have hstrip : pyStrip s = s :=
    pyStrip_eq_self s (fun c hc => not_isWhitespace_of_isDigit c (h c hc))
  simp only [pythonInt, hstrip]
  cases s with
  | nil => exact absurd rfl hne
  | cons c rest =>
    have hc := h c (List.mem_cons_self c rest)
    have hplus : c ≠ '+' := fun he => by
      subst he
      exact absurd hc (by decide)
    have hminus : c ≠ '-' := fun he => by
      subst he
      exact absurd hc (by decide)
    rw [if_neg (by simp : ¬(c :: rest = []))]
    simp only [List.headD_cons, List.tail_cons]
    rw [if_neg hplus, if_neg hminus]
    rw [parseDigits_all_digits c rest h]
    rfl

theorem pythonInt_none_of_bad (s : List Char) (c : Char) (hm : c ∈ s)
    (hd : c.isDigit = false) (hw : c.isWhitespace = false)
    (hp : c ≠ '+') (hmi : c ≠ '-') (hu : c ≠ '_') :
    pythonInt s = Option.none := by
  have hmem : c ∈ pyStrip s := mem_pyStrip_of_mem s c hm hw
  simp only [pythonInt]
  cases hps : pyStrip s with
  | nil =>
    rw [hps] at hmem
    cases hmem
  | cons x rest =>
    rw [hps] at hmem
    rw [if_neg (by simp : ¬(x :: rest = []))]
    simp only [List.headD_cons, List.tail_cons]
    rcases List.mem_cons.mp hmem with h1 | h2
    · subst h1
      rw [if_neg hp, if_neg hmi]
      rw [parseDigits_none c hd hu _ (List.mem_cons_self c rest)]
      rfl
    · by_cases hx1 : x = '+'
      · rw [if_pos hx1]
        rw [parseDigits_none c hd hu rest h2]
        rfl
      · rw [if_neg hx1]
        by_cases hx2 : x = '-'
        · rw [if_pos hx2]
          rw [parseDigits_none c hd hu rest h2]
          rfl
        · rw [if_neg hx2]
          rw [parseDigits_none c hd hu (x :: rest) (List.mem_cons_of_mem x h2)]
          rfl

/-- Counterexample to claim C8: the release-date string "200" is shorter
than 4 characters, yet the derived release year is 200 — Python
`int("200")` succeeds — not the unknown marker `None` the claim requires
for short strings. -/
theorem C8_counterexample :
    release_year_of numStr200 = some 200
    ∧ some (200 : Int) ≠ (Option.none : Option Int) :=
  ⟨rfl, by decide⟩

/-- Claim C8 (amended): the derived release year is Python `int()` applied
to the first four characters of the release-date string (the whole string
when shorter).  When that prefix is a nonempty digit string the year is its
decimal value — even for strings shorter than 4 characters — and when the
prefix contains a character that can play no role in an integer literal
(not a digit, whitespace, sign, or underscore) the year is unknown
(`None`), never zero and never an exception: `release_year_of` is total. -/
theorem C8_release_year (s : List Char) :
    (s.take 4 ≠ [] → (∀ c ∈ s.take 4, c.isDigit = true) →
      release_year_of s = some ((decVal (s.take 4) : Nat) : Int))
    ∧ ((∃ c ∈ s.take 4, c.isDigit = false ∧ c.isWhitespace = false
        ∧ c ≠ '+' ∧ c ≠ '-' ∧ c ≠ '_') →
      release_year_of s = Option.none) := by
  constructor
  · intro hne hdig
    unfold release_year_of
    exact pythonInt_all_digits (s.take 4) hne hdig
  · rintro ⟨c, hm, hd, hw, hp, hmi, hu⟩
    unfold release_year_of
    exact pythonInt_none_of_bad (s.take 4) c hm hd hw hp hmi hu

/-- Witness for C8: a full date parses to its year, and an all-letter
string yields the unknown year. -/
theorem C8_release_year_witness :
    release_year_of sampleDate = some 2003
    ∧ release_year_of abcdStr = Option.none := by
  constructor
  · have h := (C8_release_year sampleDate).1 (by decide) (by decide)
    rw [h]
    decide
  · exact (C8_release_year abcdStr).2 ⟨'a', by decide, by decide⟩

end SpotiApp
